import Mathlib

/-!
Verification of the instagram-content-generator pipeline core.

Shallow embedding of the repository's Python modules:
  * `src/modules/scheduler.py`   — `ContentProcessor.process_file`,
    `ContentProcessor._move_to_processed`, `InstagramScheduler._processing_loop`
  * `src/modules/caption_generator.py` — `CaptionGenerator.generate_caption`
    and its helpers, in particular `_trim_caption`
  * `src/modules/content_analyzer.py`  — `ContentAnalyzer.analyze_file`
  * `src/modules/instagram_uploader.py` — `InstagramUploader.upload_photo`,
    `upload_video`, `_check_rate_limits`, `_get_retry_time`

The file-lifecycle store (`FileScanner` in `src/modules/video_scanner.py`) is
not present in the sources; its operations are modelled from the design
document (see the doc comments marked "Modelled from the spec").

External effects (the Instagram client, the OpenAI call, the filesystem,
randomness, the clock) are passed in explicitly as oracle values, and the
side effects of a run (which upload method was invoked, where the file was
moved, whether a sidecar was written) are returned in explicit result
records, so that every function here is a total, executable Lean function.
-/

/-! ### Lifecycle table (modelled from the spec) -/

/-- Processing state of one discovered file, keyed by its content hash. -/
inductive FileStatus
  | discovered
  | processing
  | completed
  | failed
deriving DecidableEq, Repr

/-- Modelled from the spec: the durable record of one unit of work kept by the
lifecycle table (`FileScanner` in `src/modules/video_scanner.py`, absent from
the sources): current state, attempt count, and last recorded error. -/
structure LifecycleEntry where
  status : FileStatus
  attempts : Nat
  lastError : Option String
deriving DecidableEq, Repr

/-- Modelled from the spec: `FileScanner.mark_processing`
(`try_acquire_for_processing`): atomically transitions DISCOVERED to
PROCESSING and is a no-op when the entry is not in DISCOVERED state. -/
def mark_processing (e : LifecycleEntry) : LifecycleEntry :=
  if e.status = FileStatus.discovered then { e with status := FileStatus.processing } else e

/-- Modelled from the spec: `FileScanner.mark_completed`. The spec defines
`complete(fingerprint)` as the PROCESSING to COMPLETED transition, invoked on
upload success; the processing loop in `scheduler.py` passes the pipeline
outcome as a flag, so the completion transition applies exactly when the flag
is set. -/
def mark_completed (e : LifecycleEntry) (success : Bool) : LifecycleEntry :=
  if success ∧ e.status = FileStatus.processing then
    { e with status := FileStatus.completed }
  else e

/-- Modelled from the spec: `FileScanner.mark_failed`
(`fail(fingerprint, error, max_attempts)`): increments `attempts`; if the new
count is still below `max_attempts` the entry transitions back to DISCOVERED
(eligible for re-queue), otherwise it transitions to FAILED and records the
error. -/
def mark_failed (e : LifecycleEntry) (err : String) (maxAttempts : Nat) : LifecycleEntry :=
  let a := e.attempts + 1
  if a < maxAttempts then
    { e with status := FileStatus.discovered, attempts := a }
  else
    { e with status := FileStatus.failed, attempts := a, lastError := some err }

/-- A freshly discovered entry: DISCOVERED with zero attempts. -/
def freshEntry : LifecycleEntry :=
  { status := FileStatus.discovered, attempts := 0, lastError := none }

/-- One dequeue-and-fail round of the retry protocol: the entry is acquired
for processing and the run then fails, invoking `mark_failed`. Iterated to
study the retry bound. -/
def iter_fail (err : String) (maxAttempts : Nat) : Nat → LifecycleEntry
  | 0 => freshEntry
  | k + 1 => mark_failed (mark_processing (iter_fail err maxAttempts k)) err maxAttempts

/-! ### Pipeline orchestrator (`ContentProcessor.process_file`) -/

/-- Oracle inputs for one `process_file` run: the outcomes of the content
analyzer, the caption generator, uploader acquisition, and the dispatched
upload call, together with the item's metadata from the scanner. -/
structure ProcessEnv where
  /-- `some e` when `analyze_file` returned a dict with an `"error"` key. -/
  analysisError : Option String
  /-- `some e` when `generate_caption` raised an exception. -/
  captionExn : Option String
  /-- whether `get_or_create_uploader` returned an authenticated uploader. -/
  uploaderAvailable : Bool
  /-- `file_info["content_type"]` from the scanner. -/
  content_type : String
  /-- `file_info["file_path"]`. -/
  file_path : String
  /-- `upload_result.get("success")` of the dispatched upload call. -/
  uploadSuccess : Bool
  /-- `upload_result.get("error")` of the dispatched upload call. -/
  uploadError : Option String
deriving DecidableEq, Repr

/-- Where `_move_to_processed` relocated the file and whether it wrote the
`.meta` sidecar next to it. -/
structure MoveEffect where
  destDir : String
  sidecar : Bool
deriving DecidableEq, Repr

/-- Observable outcome of one `process_file` call: the returned boolean and
the side effects it performed. -/
structure ProcessOutput where
  success : Bool
  uploadPhotoInvoked : Bool
  uploadVideoInvoked : Bool
  move : Option MoveEffect
deriving DecidableEq, Repr

/-- Python `needle in haystack` on strings. -/
def strContains (haystack needle : String) : Bool :=
  decide (needle.toList <:+: haystack.toList)

/-- Python `s.startswith(px)`. -/
def strStartsWith (s px : String) : Bool :=
  px.toList.isPrefixOf s.toList

/-- `ContentProcessor._move_to_processed` (scheduler.py): successful items go
to the per-user processed images/videos directory (chosen by whether the
source path mentions `videos`), failed items go to the per-user `failed`
directory; a `.meta` sidecar is written exactly when the status is
`"failed"` and the error text is nonempty. -/
def move_to_processed (file_path status error_msg : String) : MoveEffect :=
  { destDir :=
      if status = "success" then
        if strContains file_path "videos" then "processed_videos" else "processed_images"
      else "failed",
    sidecar := status = "failed" ∧ error_msg ≠ "" }

/-- A `process_file` run that returned `success` without invoking an upload
method or moving the file. -/
def noEffects (success : Bool) : ProcessOutput :=
  { success := success, uploadPhotoInvoked := false, uploadVideoInvoked := false, move := none }

/-- `ContentProcessor.process_file` (scheduler.py): analyze, generate a
caption, acquire an uploader, dispatch on content type, then move the file to
the processed directory on upload success or to the failed directory (with
sidecar) on upload failure. Analysis errors, caption exceptions, a missing
uploader and unsupported content types all return `False` without touching
the file. -/
def process_file (env : ProcessEnv) : ProcessOutput :=
  match env.analysisError with
  | some _ => noEffects false
  | none =>
    match env.captionExn with
    | some _ => noEffects false
    | none =>
      if ¬ env.uploaderAvailable then noEffects false
      else if env.content_type = "image" ∨ env.content_type = "video" then
        let isPhoto := env.content_type = "image"
        if env.uploadSuccess then
          { success := true,
            uploadPhotoInvoked := isPhoto,
            uploadVideoInvoked := ¬ isPhoto,
            move := some (move_to_processed env.file_path "success" "") }
        else
          let error_msg := env.uploadError.getD "Unknown upload error"
          { success := false,
            uploadPhotoInvoked := isPhoto,
            uploadVideoInvoked := ¬ isPhoto,
            move := some (move_to_processed env.file_path "failed" error_msg) }
      else noEffects false

/-- Result of one iteration of the scheduler's background processing loop. -/
structure StepResult where
  entry : LifecycleEntry
  success : Bool
  output : ProcessOutput
deriving DecidableEq, Repr

/-- One iteration of `InstagramScheduler._processing_loop` (scheduler.py) on a
dequeued item: mark it processing, run `process_file`, call `mark_completed`
with the outcome, and additionally call `mark_failed` (with the literal error
`"Processing failed"` and `max_attempts=3`) when the run failed. -/
def processing_step (e : LifecycleEntry) (env : ProcessEnv) : StepResult :=
  let e1 := mark_processing e
  let out := process_file env
  let e2 := mark_completed e1 out.success
  let e3 := if out.success then e2 else mark_failed e2 "Processing failed" 3
  { entry := e3, success := out.success, output := out }

/-! ### Instagram uploader (`InstagramUploader`) -/

/-- Rate-limit bookkeeping of an `InstagramUploader` instance
(instagram_uploader.py): the per-day upload counter, the date it was last
reset on (encoded as a day number), the daily cap (50 at construction), and
the time of the last successful upload. -/
structure UploaderState where
  daily_uploads : Nat
  last_reset_date : Nat
  max_daily_uploads : Nat
  last_upload_time : Option Nat
deriving DecidableEq, Repr

/-- The uploader state right after `InstagramUploader.__init__` on a given
day: zero uploads so far, cap 50. -/
def initUploader (today : Nat) : UploaderState :=
  { daily_uploads := 0, last_reset_date := today, max_daily_uploads := 50,
    last_upload_time := none }

/-- `InstagramUploader._check_rate_limits`: reset the daily counter when the
calendar date advanced past the recorded reset date, then report whether the
counter is still below the daily cap. Returns the (possibly reset) state
together with the verdict. -/
def check_rate_limits (s : UploaderState) (today : Nat) : UploaderState × Bool :=
  let s1 :=
    if s.last_reset_date < today then
      { s with daily_uploads := 0, last_reset_date := today }
    else s
  (s1, s1.daily_uploads < s1.max_daily_uploads)

/-- `InstagramUploader._get_retry_time`: seconds until midnight when the
daily cap is reached, otherwise the configured upload delay. The
caller supplies the two clock-derived quantities. -/
def get_retry_time (s : UploaderState) (secondsUntilTomorrow uploadDelaySeconds : Nat) : Nat :=
  if s.max_daily_uploads ≤ s.daily_uploads then secondsUntilTomorrow else uploadDelaySeconds

/-- The result dictionary returned by `upload_photo` / `upload_video`. -/
structure UploadResult where
  success : Bool
  error : Option String
  retry_after : Option Nat
  media_id : Option String
  details : Option String
deriving DecidableEq, Repr

/-- Outcome of the Instagram client call attempted inside `upload_photo`:
a created media, a `FeedbackRequired` exception, a `PleaseWaitFewMinutes`
exception, or any other exception with its message. -/
inductive ClientOutcome
  | ok (pk : String) (code : String)
  | feedback (msg : String)
  | pleaseWait
  | exn (msg : String)
deriving DecidableEq, Repr

/-- Exceptions that `_safe_video_upload` can let escape to `upload_video`. -/
inductive UploadExn
  | feedback (msg : String)
  | pleaseWait
  | other (msg : String)
deriving DecidableEq, Repr

/-- Outcome of the client `video_upload` call inside `_safe_video_upload`:
success, a Pydantic validation error (which the method swallows, answering
with the thumbnail photo upload or a mock media object), or one of the
exceptions it re-raises. -/
inductive VideoClientOutcome
  | ok (pk : String)
  | validationError (photoFallbackPk : Option String)
  | feedback (msg : String)
  | pleaseWait
  | exn (msg : String)
deriving DecidableEq, Repr

/-- `InstagramUploader._safe_video_upload` (the second, effective definition
in instagram_uploader.py): returns the uploaded media on success; on a
Pydantic validation error it falls back to uploading the video thumbnail as a
photo and, failing that, returns a mock media object — so a validation error
never escapes; every other exception is re-raised. -/
def safe_video_upload (mockPk : String) : VideoClientOutcome → Except UploadExn String
  | VideoClientOutcome.ok pk => Except.ok pk
  | VideoClientOutcome.validationError (some photoPk) => Except.ok photoPk
  | VideoClientOutcome.validationError none => Except.ok mockPk
  | VideoClientOutcome.feedback m => Except.error (UploadExn.feedback m)
  | VideoClientOutcome.pleaseWait => Except.error UploadExn.pleaseWait
  | VideoClientOutcome.exn m => Except.error (UploadExn.other m)

/-- Full observation of one upload call: the new uploader state, the returned
result dictionary, and whether the platform client was invoked at all. -/
structure CallResult where
  state : UploaderState
  result : UploadResult
  clientInvoked : Bool
deriving DecidableEq, Repr

/-- `InstagramUploader.upload_photo`: check rate limits (answering
`"Rate limit exceeded"` with a `retry_after` hint without touching the
client when the daily cap is hit), prepare the image (failure yields
`"Failed to prepare image"`), then invoke the client; success bumps the
daily counter, `FeedbackRequired` maps to `"Content feedback required"`,
`PleaseWaitFewMinutes` maps to `"Rate limited"` with a 15-minute
`retry_after`, and any other exception maps to its message. All failure
paths return a result dictionary; nothing is raised to the caller. -/
def upload_photo (s : UploaderState) (today : Nat)
    (secondsUntilTomorrow uploadDelaySeconds : Nat)
    (prepared : Bool) (client : ClientOutcome) : CallResult :=
  let (s1, withinLimits) := check_rate_limits s today
  if ¬ withinLimits then
    { state := s1, clientInvoked := false,
      result := { success := false, error := some "Rate limit exceeded",
                  retry_after := some (get_retry_time s1 secondsUntilTomorrow uploadDelaySeconds),
                  media_id := none, details := none } }
  else if ¬ prepared then
    { state := s1, clientInvoked := false,
      result := { success := false, error := some "Failed to prepare image",
                  retry_after := none, media_id := none, details := none } }
  else
    match client with
    | ClientOutcome.ok pk _ =>
      { state :=
          { s1 with daily_uploads := s1.daily_uploads + 1, last_upload_time := some today },
        clientInvoked := true,
        result := { success := true, error := none, retry_after := none,
                    media_id := some pk, details := none } }
    | ClientOutcome.feedback m =>
      { state := s1, clientInvoked := true,
        result := { success := false, error := some "Content feedback required",
                    retry_after := none, media_id := none, details := some m } }
    | ClientOutcome.pleaseWait =>
      { state := s1, clientInvoked := true,
        result := { success := false, error := some "Rate limited",
                    retry_after := some (15 * 60), media_id := none, details := none } }
    | ClientOutcome.exn m =>
      { state := s1, clientInvoked := true,
        result := { success := false, error := some m,
                    retry_after := none, media_id := none, details := none } }

/-- `InstagramUploader.upload_video`: same structure as `upload_photo`
(rate-limit gate, `"Failed to prepare video"` on preparation failure), with
the client call going through `_safe_video_upload`. -/
def upload_video (s : UploaderState) (today : Nat)
    (secondsUntilTomorrow uploadDelaySeconds : Nat)
    (prepared : Bool) (mockPk : String) (client : VideoClientOutcome) : CallResult :=
  let (s1, withinLimits) := check_rate_limits s today
  if ¬ withinLimits then
    { state := s1, clientInvoked := false,
      result := { success := false, error := some "Rate limit exceeded",
                  retry_after := some (get_retry_time s1 secondsUntilTomorrow uploadDelaySeconds),
                  media_id := none, details := none } }
  else if ¬ prepared then
    { state := s1, clientInvoked := false,
      result := { success := false, error := some "Failed to prepare video",
                  retry_after := none, media_id := none, details := none } }
  else
    match safe_video_upload mockPk client with
    | Except.ok pk =>
      { state :=
          { s1 with daily_uploads := s1.daily_uploads + 1, last_upload_time := some today },
        clientInvoked := true,
        result := { success := true, error := none, retry_after := none,
                    media_id := some pk, details := none } }
    | Except.error (UploadExn.feedback m) =>
      { state := s1, clientInvoked := true,
        result := { success := false, error := some "Content feedback required",
                    retry_after := none, media_id := none, details := some m } }
    | Except.error UploadExn.pleaseWait =>
      { state := s1, clientInvoked := true,
        result := { success := false, error := some "Rate limited",
                    retry_after := some (15 * 60), media_id := none, details := none } }
    | Except.error (UploadExn.other m) =>
      { state := s1, clientInvoked := true,
        result := { success := false, error := some m,
                    retry_after := none, media_id := none, details := none } }

/-! ### Content analyzer (`ContentAnalyzer`) -/

/-- Result of `ContentAnalyzer._detect_file_type`. -/
inductive DetectedType
  | image
  | video
  | unknown
deriving DecidableEq, Repr

/-- `ContentAnalyzer._detect_file_type` (content_analyzer.py): sniff the MIME
type with `magic.from_file`; `image/...` maps to image, `video/...` to video,
anything else — including a failure of the sniffing call itself — to
unknown. -/
def detect_file_type (mimeResult : Except String String) : DetectedType :=
  match mimeResult with
  | Except.error _ => DetectedType.unknown
  | Except.ok m =>
    if strStartsWith m "image/" then DetectedType.image
    else if strStartsWith m "video/" then DetectedType.video
    else DetectedType.unknown

/-- The structured fields of a successful analysis dictionary. The numeric
confidence (a float in the source) is abstracted to a `Nat`; the visual
features and metadata sub-dictionaries are not modelled further since no
claim inspects them. -/
structure AnalysisFields where
  file_type : String
  caption : String
  category : String
  confidence : Nat
  frame_count : Option Nat
  file_path : String
deriving DecidableEq, Repr

/-- The dictionary returned by `analyze_file`: either the structured analysis
fields or a dict carrying only an `"error"` key. -/
inductive AnalysisOutcome
  | fields (f : AnalysisFields)
  | error (msg : String)
deriving DecidableEq, Repr

/-- Oracle inputs for one `analyze_file` call: outcomes of the MIME sniff,
the image open, the BLIP captioning and CLIP classification calls, the
number of video frames `_extract_video_frames` managed to extract (it
returns an empty list on any internal error), and a slot for an unexpected
runtime fault caught by the outermost handler. -/
structure AnalyzerEnv where
  path : String
  mimeResult : Except String String
  imageOpen : Except String Unit
  blipCaption : Except String String
  clipClassify : Except String (String × Nat)
  frameCount : Nat
  outerFault : Option String
deriving Repr

/-- `ContentAnalyzer._generate_image_caption`: the BLIP caption, or the
literal `"Image content"` when the model call fails (caught internally). -/
def generate_image_caption (o : Except String String) : String :=
  match o with
  | Except.ok c => c
  | Except.error _ => "Image content"

/-- `ContentAnalyzer._classify_content`: the CLIP category and confidence,
or `("general", 0)` when the model call fails (caught internally). -/
def classify_content (o : Except String (String × Nat)) : String × Nat :=
  match o with
  | Except.ok p => p
  | Except.error _ => ("general", 0)

/-- `ContentAnalyzer._analyze_image`: open the image (a failure is caught and
reported as an error dict), caption it, classify it, and assemble the
structured result dictionary. -/
def analyze_image (env : AnalyzerEnv) : AnalysisOutcome :=
  match env.imageOpen with
  | Except.error e => AnalysisOutcome.error e
  | Except.ok _ =>
    let caption := generate_image_caption env.blipCaption
    let cc := classify_content env.clipClassify
    AnalysisOutcome.fields
      { file_type := "image", caption := caption, category := cc.1,
        confidence := cc.2, frame_count := none, file_path := env.path }

/-- `ContentAnalyzer._analyze_video`: extract frames (an empty extraction
yields the error dict `"Could not extract frames from video"`), then caption
and classify the representative frame and assemble the structured result
dictionary including the frame count. -/
def analyze_video (env : AnalyzerEnv) : AnalysisOutcome :=
  if env.frameCount = 0 then
    AnalysisOutcome.error "Could not extract frames from video"
  else
    let caption := generate_image_caption env.blipCaption
    let cc := classify_content env.clipClassify
    AnalysisOutcome.fields
      { file_type := "video", caption := caption, category := cc.1,
        confidence := cc.2, frame_count := some env.frameCount, file_path := env.path }

/-- `ContentAnalyzer.analyze_file`: detect the file type and dispatch;
an unrecognized type yields the error dict `"Unsupported file type"`, and
any unexpected exception is caught by the outer handler and returned as an
error dict with the exception text. -/
def analyze_file (env : AnalyzerEnv) : AnalysisOutcome :=
  match env.outerFault with
  | some e => AnalysisOutcome.error e
  | none =>
    match detect_file_type env.mimeResult with
    | DetectedType.image => analyze_image env
    | DetectedType.video => analyze_video env
    | DetectedType.unknown => AnalysisOutcome.error "Unsupported file type"

/-! ### Caption generator (`CaptionGenerator`) — Python string helpers -/

/-- Python whitespace test used by `str.strip` / `str.rstrip` / `str.split`
(the ASCII whitespace characters). -/
def pyIsSpace (c : Char) : Bool :=
  c == ' ' || c == '\t' || c == '\n' || c == '\r' || c == '\x0b' || c == '\x0c'

/-- Python `str.rstrip()`. -/
def pyRstrip (s : List Char) : List Char :=
  (s.reverse.dropWhile pyIsSpace).reverse

/-- Python `str.strip()`. -/
def pyStrip (s : List Char) : List Char :=
  pyRstrip (s.dropWhile pyIsSpace)

/-- Python `caption.split('. ')`: split on the two-character separator,
scanning left to right without overlap. -/
def splitDotSpace (acc : List Char) : List Char → List (List Char)
  | [] => [acc.reverse]
  | '.' :: ' ' :: rest => acc.reverse :: splitDotSpace [] rest
  | c :: rest => splitDotSpace (c :: acc) rest

/-- Worker for Python `str.split()` with no separator: split on whitespace
runs, discarding empty pieces. -/
def splitWSGo (acc : List Char) : List Char → List (List Char)
  | [] => if acc.isEmpty then [] else [acc.reverse]
  | c :: rest =>
    if pyIsSpace c then
      if acc.isEmpty then splitWSGo [] rest
      else acc.reverse :: splitWSGo [] rest
    else splitWSGo (c :: acc) rest

/-- Python `caption.split()`. -/
def pySplitWS (s : List Char) : List (List Char) :=
  splitWSGo [] s

/-- Python `' '.join(words)`. -/
def joinSpace (ws : List (List Char)) : List Char :=
  List.intercalate [' '] ws

/-- The sentence-accumulation loop of `_trim_caption`: greedily keep whole
sentences (with their `". "` separator restored) while the accumulated text
stays within `max_length - 3`, stopping at the first sentence that does not
fit. -/
def sentLoop (maxLength : Int) : List (List Char) → List Char → List Char
  | [], acc => acc
  | s :: rest, acc =>
    if ((acc ++ s ++ ['.', ' ']).length : Int) ≤ maxLength - 3 then
      sentLoop maxLength rest (acc ++ s ++ ['.', ' '])
    else acc

/-- The word-accumulation loop of `_trim_caption`: greedily keep words while
their space-joined text stays within `max_length - 3`, stopping at the first
word that does not fit. -/
def wordLoop (maxLength : Int) : List (List Char) → List (List Char) → List (List Char)
  | [], acc => acc
  | w :: rest, acc =>
    if ((joinSpace (acc ++ [w])).length : Int) ≤ maxLength - 3 then
      wordLoop maxLength rest (acc ++ [w])
    else acc

/-- `CaptionGenerator._trim_caption` (caption_generator.py): return the
caption unchanged when it already fits; otherwise keep whole sentences
(right-stripped, with `"..."` appended), and when not even one sentence fits,
keep whole words (space-joined, with `"..."` appended). -/
def trim_caption (caption : List Char) (maxLength : Int) : List Char :=
  if (caption.length : Int) ≤ maxLength then caption
  else
    let sentences := splitDotSpace [] caption
    let trimmed := sentLoop maxLength sentences []
    if trimmed ≠ [] then pyRstrip trimmed ++ ['.', '.', '.']
    else
      let trimmedWords := wordLoop maxLength (pySplitWS caption) []
      joinSpace trimmedWords ++ ['.', '.', '.']

/-- `_trim_caption` lifted to `String`. -/
def trim_caption_str (s : String) (maxLength : Int) : String :=
  String.mk (trim_caption s.toList maxLength)

/-! ### Caption generator — tables and pipeline -/

/-- The `category_hashtags` table of `CaptionGenerator.__init__`. -/
def category_hashtags : List (String × List String) := [
  ("gaming", ["#gaming", "#gamer", "#videogames", "#esports", "#twitch",
    "#playstation", "#xbox", "#nintendo", "#pc", "#mobile",
    "#gameplay", "#streamer", "#gaminglife", "#gamingcommunity"]),
  ("sports", ["#sports", "#fitness", "#workout", "#training", "#athlete",
    "#gym", "#health", "#motivation", "#fit", "#exercise",
    "#strength", "#cardio", "#running", "#cycling", "#swimming"]),
  ("food", ["#food", "#foodie", "#delicious", "#yummy", "#cooking",
    "#recipe", "#chef", "#restaurant", "#foodporn", "#tasty",
    "#homemade", "#dinner", "#lunch", "#breakfast", "#healthy"]),
  ("travel", ["#travel", "#wanderlust", "#adventure", "#explore", "#vacation",
    "#nature", "#photography", "#landscape", "#city", "#culture",
    "#backpacking", "#roadtrip", "#beach", "#mountains", "#sunset"]),
  ("fashion", ["#fashion", "#style", "#outfit", "#ootd", "#fashionista",
    "#trendy", "#designer", "#clothing", "#accessories", "#beauty",
    "#model", "#photoshoot", "#streetstyle", "#vintage", "#luxury"]),
  ("technology", ["#technology", "#tech", "#innovation", "#gadgets", "#ai",
    "#programming", "#coding", "#software", "#startup", "#digital",
    "#mobile", "#app", "#development", "#future", "#science"]),
  ("nature", ["#nature", "#wildlife", "#photography", "#landscape", "#forest",
    "#ocean", "#mountains", "#sunset", "#flowers", "#trees",
    "#environment", "#conservation", "#outdoor", "#hiking", "#peace"]),
  ("lifestyle", ["#lifestyle", "#life", "#happy", "#inspiration", "#motivation",
    "#positivevibes", "#selfcare", "#mindfulness", "#wellness", "#home",
    "#family", "#friends", "#love", "#joy", "#gratitude"]),
  ("fitness", ["#fitness", "#workout", "#gym", "#health", "#fit", "#training",
    "#exercise", "#strength", "#muscle", "#cardio", "#bodybuilding",
    "#fitlife", "#motivation", "#goals", "#transformation"]),
  ("art", ["#art", "#artist", "#creative", "#artwork", "#painting",
    "#drawing", "#design", "#illustration", "#gallery", "#museum",
    "#sculpture", "#photography", "#digital", "#creativity", "#inspiration"]),
  ("music", ["#music", "#musician", "#song", "#concert", "#live", "#studio",
    "#artist", "#band", "#singer", "#guitar", "#piano", "#drums",
    "#recording", "#newmusic", "#indie", "#rock", "#pop"]),
  ("general", ["#photooftheday", "#instagood", "#beautiful", "#amazing", "#cool",
    "#awesome", "#nice", "#good", "#best", "#perfect", "#great",
    "#love", "#like", "#follow", "#instadaily"])]

/-- The `engagement_prompts` list of `CaptionGenerator.__init__`. -/
def engagement_prompts : List String := [
  "What do you think?",
  "Tag someone who needs to see this!",
  "Double tap if you agree!",
  "Share your thoughts below!",
  "Who can relate?",
  "What's your favorite part?",
  "Drop a ❤️ if you love this!",
  "Tell me in the comments!",
  "Save this for later!",
  "Which one is your pick?"]

/-- The hashtag string produced by the `except` branch of
`_generate_hashtags` and by `_generate_fallback_caption`:
`" ".join(category_hashtags.get(category, ["#photooftheday"])[:10])`. -/
def hashtag_fallback (category : String) : String :=
  String.intercalate " " (((category_hashtags.lookup category).getD ["#photooftheday"]).take 10)

/-- The `style_templates` of `CaptionGenerator._generate_simple_caption`,
instantiated at the given description and category; an unknown style falls
back to the `"engaging"` templates. -/
def simple_caption_templates (description category style : String) : List String :=
  if style = "professional" then
    ["Presenting quality " ++ category ++ " content. " ++ description,
     "Professional " ++ category ++ " showcase. " ++ description,
     "Excellence in " ++ category ++ ". " ++ description]
  else if style = "casual" then
    ["Just some cool " ++ category ++ " stuff. " ++ description,
     "Casual " ++ category ++ " vibes. " ++ description,
     "Sharing some " ++ category ++ " love. " ++ description]
  else if style = "funny" then
    ["When " ++ category ++ " gets real! " ++ description,
     "That " ++ category ++ " life though! " ++ description,
     "Me trying to " ++ category ++ "... " ++ description]
  else
    ["Check out this amazing " ++ category ++ " content! " ++ description,
     "Loving this " ++ category ++ " vibe! " ++ description,
     "Can't get enough of " ++ category ++ " like this! " ++ description]

/-- `CaptionGenerator._generate_simple_caption`: `random.choice` over the
style's templates, with the choice supplied as an index. -/
def generate_simple_caption (idx : Nat) (description category style : String) : String :=
  let ts := simple_caption_templates description category style
  ts.getD (idx % ts.length) ""

/-- The post-processing `_generate_ai_caption` applies to the model's reply:
`strip()`, removal of a leading `Caption:` label with its trailing
whitespace, and removal of every `#` and `@` character. -/
def clean_ai (text : String) : String :=
  let t := pyStrip text.toList
  let t :=
    if ("Caption:".toList).isPrefixOf t then (t.drop 8).dropWhile pyIsSpace else t
  String.mk (t.filter (fun c => !(c == '#' || c == '@')))

/-- `CaptionGenerator._generate_ai_caption`: the cleaned-up OpenAI reply, or
— when the API call fails, caught internally — the templated caption from
`_generate_simple_caption`. -/
def generate_ai_caption (aiCall : Except String String) (idx : Nat)
    (description category style : String) : String :=
  match aiCall with
  | Except.ok text => clean_ai text
  | Except.error _ => generate_simple_caption idx description category style

/-- Append each picked emoji to the corresponding leading sentence
(`sentences[i] += " " + emoji` in `_add_emojis`). -/
def decorate : List String → List String → List String
  | ss, [] => ss
  | [], _ => []
  | s :: ss, e :: es => (s ++ " " ++ e) :: decorate ss es

/-- `CaptionGenerator._add_emojis`: split into sentences and append a chosen
emoji to each of the first few. With fewer than two sentences the source's
`random.randint(2, min(4, len(sentences)))` raises, the internal handler
catches it, and the caption is returned unchanged. The chosen emojis are
supplied as an oracle list (the category only selects the pool they are
drawn from). -/
def add_emojis (picked : List String) (caption category : String) : String :=
  let sentences := caption.splitOn ". "
  if min 4 sentences.length < 2 then caption
  else String.intercalate ". " (decorate sentences picked)

/-- The analysis dictionary as consumed by `generate_caption` (fields are
read with `.get` and a default, so each is optional). -/
structure AnalysisInput where
  file_type : Option String
  caption : Option String
  category : Option String
deriving DecidableEq, Repr

/-- `CaptionGenerator._generate_fallback_caption`: one of four templated
texts plus the category hashtag block. -/
def generate_fallback_caption (idx : Nat) (a : AnalysisInput) : String :=
  let category := a.category.getD "general"
  let content_type := a.file_type.getD "content"
  let texts :=
    ["Amazing " ++ category ++ " " ++ content_type ++ "! ✨",
     "Check this out! 🔥 #" ++ category,
     "Loving this " ++ category ++ " vibe! 💫",
     "Beautiful " ++ content_type ++ " 📸 #" ++ category]
  texts.getD (idx % texts.length) "" ++ "\n\n" ++ hashtag_fallback category

/-- Oracle inputs for one `generate_caption` call: the OpenAI outcome, the
random choices, the hashtag-assembly outcome (its internal handler falls
back to the category block), and fault slots for an unexpected exception in
the main body and in the fallback construction. -/
structure CaptionOracles where
  aiCall : Except String String
  simpleIdx : Nat
  emojiPicks : List String
  addEngagement : Bool
  engagementIdx : Nat
  hashtagBody : Except String String
  bodyFault : Option String
  fallbackIdx : Nat
  fallbackFault : Option String
deriving Repr

/-- The assembly `generate_caption` performs around the main caption text:
emojis, the optional engagement prompt (70% of runs in the source), the
hashtag block, and the final trim to the configured caption limit. -/
def assemble_caption (o : CaptionOracles) (maxCaptionLength : Int)
    (category main : String) : String :=
  let withEmojis := add_emojis o.emojiPicks main category
  let withEngagement :=
    if o.addEngagement then
      withEmojis ++ "\n\n" ++ engagement_prompts.getD (o.engagementIdx % engagement_prompts.length) ""
    else withEmojis
  let tags :=
    match o.hashtagBody with
    | Except.ok t => t
    | Except.error _ => hashtag_fallback category
  trim_caption_str (withEngagement ++ "\n\n" ++ tags) maxCaptionLength

/-- `CaptionGenerator.generate_caption`: read the analysis fields with their
defaults, produce the main caption (AI with internal template fallback),
assemble emojis, engagement prompt and hashtags, and trim. Any exception in
that body is caught and answered with `_generate_fallback_caption`; only an
exception inside the fallback itself escapes to the caller. -/
def generate_caption (o : CaptionOracles) (a : AnalysisInput) (style : String)
    (maxCaptionLength : Int) : Except String String :=
  match o.bodyFault with
  | some _ =>
    match o.fallbackFault with
    | some fe => Except.error fe
    | none => Except.ok (generate_fallback_caption o.fallbackIdx a)
  | none =>
    let description := a.caption.getD ""
    let category := a.category.getD "general"
    Except.ok (assemble_caption o maxCaptionLength category
      (generate_ai_caption o.aiCall o.simpleIdx description category style))

/-! ### Concrete fixtures used by witness and counterexample theorems -/

/-- A run whose upload stage fails with a transient network error. -/
def envUploadFailImage : ProcessEnv :=
  { analysisError := none, captionExn := none, uploaderAvailable := true,
    content_type := "image", file_path := "/data/users/alice/input/images/a.jpg",
    uploadSuccess := false, uploadError := some "network timeout" }

/-- A run whose analysis stage reports an error dict. -/
def envAnalysisFail : ProcessEnv :=
  { analysisError := some "model crashed", captionExn := none, uploaderAvailable := true,
    content_type := "image", file_path := "/data/users/alice/input/images/b.jpg",
    uploadSuccess := true, uploadError := none }

/-- A run on a scanner item of unsupported content type. -/
def envUnsupported : ProcessEnv :=
  { analysisError := none, captionExn := none, uploaderAvailable := true,
    content_type := "text", file_path := "/data/users/alice/input/images/c.txt",
    uploadSuccess := false, uploadError := none }

/-- A run that completes every stage successfully. -/
def envUploadOkImage : ProcessEnv :=
  { analysisError := none, captionExn := none, uploaderAvailable := true,
    content_type := "image", file_path := "/data/users/alice/input/images/d.jpg",
    uploadSuccess := true, uploadError := none }

/-- An entry already failed twice: its next failure is the third and
terminal one under `max_attempts = 3`. -/
def entryAttempts2 : LifecycleEntry :=
  { status := FileStatus.discovered, attempts := 2, lastError := none }

/-- An analyzer call on a file whose sniffed MIME type is `text/plain`. -/
def envTextFile : AnalyzerEnv :=
  { path := "/data/users/alice/input/images/notes.txt",
    mimeResult := Except.ok "text/plain",
    imageOpen := Except.ok (), blipCaption := Except.ok "a photo",
    clipClassify := Except.ok ("general", 0), frameCount := 0, outerFault := none }

/-- A caption-generation run whose OpenAI call fails and nothing else goes
wrong. -/
def oraclesAiDown : CaptionOracles :=
  { aiCall := Except.error "api down", simpleIdx := 0, emojiPicks := ["🔥"],
    addEngagement := true, engagementIdx := 0,
    hashtagBody := Except.ok "#gaming #fun", bodyFault := none,
    fallbackIdx := 0, fallbackFault := none }

/-- An analysis dictionary for a gaming image. -/
def analysisGaming : AnalysisInput :=
  { file_type := some "image", caption := some "a player at a desk",
    category := some "gaming" }

/-- An uploader that has exhausted its daily cap on day 7000. -/
def uploaderAtCap : UploaderState :=
  { daily_uploads := 50, last_reset_date := 7000, max_daily_uploads := 50,
    last_upload_time := some 6999 }

/-! ### Theorems -/

/-- Claim C2: every `fail` call increments the attempt counter (which never
decreases), requeues the entry to DISCOVERED while the incremented count is
below `max_attempts`, and an entry failing repeatedly transitions to FAILED
exactly on the `max_attempts`-th failure — never before and never after. -/
theorem mark_failed_retry_bound (err : String) (maxAttempts : Nat)
    (h : 1 ≤ maxAttempts) :
    (∀ e : LifecycleEntry,
      (mark_failed e err maxAttempts).attempts = e.attempts + 1
      ∧ e.attempts ≤ (mark_failed e err maxAttempts).attempts
      ∧ ((mark_failed e err maxAttempts).status = FileStatus.discovered ↔
          e.attempts + 1 < maxAttempts)
      ∧ ((mark_failed e err maxAttempts).status = FileStatus.failed ↔
          maxAttempts ≤ e.attempts + 1))
    ∧ (∀ k : Nat,
      (iter_fail err maxAttempts k).attempts = k
      ∧ ((iter_fail err maxAttempts k).status = FileStatus.failed ↔ maxAttempts ≤ k)
      ∧ ((iter_fail err maxAttempts k).status = FileStatus.discovered ↔ k < maxAttempts)) := by
  have hsingle : ∀ e : LifecycleEntry,
      (mark_failed e err maxAttempts).attempts = e.attempts + 1
      ∧ e.attempts ≤ (mark_failed e err maxAttempts).attempts
      ∧ ((mark_failed e err maxAttempts).status = FileStatus.discovered ↔
          e.attempts + 1 < maxAttempts)
      ∧ ((mark_failed e err maxAttempts).status = FileStatus.failed ↔
          maxAttempts ≤ e.attempts + 1) := by
    intro e
    unfold mark_failed
    by_cases hc : e.attempts + 1 < maxAttempts
    · simp [hc]
      try omega
    · simp [hc]
      try omega
  refine ⟨hsingle, ?_⟩
  intro k
  induction k with
  | zero =>
    simp [iter_fail, freshEntry]
    omega
  | succ k ih =>
    have hatt : (mark_processing (iter_fail err maxAttempts k)).attempts = k := by
      unfold mark_processing
      by_cases hs : (iter_fail err maxAttempts k).status = FileStatus.discovered
      · simp [hs, ih.1]
      · simp [hs, ih.1]
    have := hsingle (mark_processing (iter_fail err maxAttempts k))
    rw [hatt] at this
    refine ⟨by simpa [iter_fail] using this.1, ?_, ?_⟩
    · simpa [iter_fail] using this.2.2.2
    · simpa [iter_fail] using this.2.2.1

/-- Witness for C2 at the configured default `max_attempts = 3`: the third
failure of a fresh entry is terminal, the second is not. -/
theorem mark_failed_retry_bound_witness :
    1 ≤ 3
    ∧ (iter_fail "upload failed" 3 2).status = FileStatus.discovered
    ∧ (iter_fail "upload failed" 3 3).status = FileStatus.failed
    ∧ (iter_fail "upload failed" 3 3).attempts = 3 := by
  have h := mark_failed_retry_bound "upload failed" 3 (by decide)
  exact ⟨by decide, (h.2 2).2.2.mpr (by decide), (h.2 3).2.1.mpr (by decide), (h.2 3).1⟩

/-- Claim C1: for an item dequeued by the background processing loop, the
completion transition of the lifecycle table is applied exactly when the
pipeline run succeeded; an unsuccessful run instead goes through the failure
transition (attempt incremented, entry requeued or terminally failed), and
the two bookkeeping outcomes are mutually exclusive for a single run. -/
theorem processing_step_complete_iff_success (e : LifecycleEntry) (env : ProcessEnv)
    (h : e.status = FileStatus.discovered) :
    ((processing_step e env).entry.status = FileStatus.completed ↔
      (processing_step e env).success = true)
    ∧ ((processing_step e env).success = true →
        (processing_step e env).entry.attempts = e.attempts)
    ∧ ((processing_step e env).success = false →
        (processing_step e env).entry.attempts = e.attempts + 1
        ∧ ((processing_step e env).entry.status = FileStatus.discovered
           ∨ (processing_step e env).entry.status = FileStatus.failed)) := by
  unfold processing_step
  cases hs : (process_file env).success with
  | true =>
    simp [hs, mark_processing, mark_completed, h]
  | false =>
    simp [hs, mark_processing, mark_completed, mark_failed, h]
    by_cases hc : e.attempts + 1 < 3
    · simp [hc]
    · simp [hc]

/-- Witness for C1 on concrete runs: a successful run completes the fresh
entry without touching its attempt counter, and the bookkeeping facts of the
theorem hold there. -/
theorem processing_step_complete_iff_success_witness :
    freshEntry.status = FileStatus.discovered
    ∧ ((processing_step freshEntry envUploadOkImage).entry.status = FileStatus.completed ↔
        (processing_step freshEntry envUploadOkImage).success = true)
    ∧ ((processing_step freshEntry envUploadOkImage).success = true →
        (processing_step freshEntry envUploadOkImage).entry.attempts = freshEntry.attempts)
    ∧ ((processing_step freshEntry envUploadOkImage).success = false →
        (processing_step freshEntry envUploadOkImage).entry.attempts = freshEntry.attempts + 1
        ∧ ((processing_step freshEntry envUploadOkImage).entry.status = FileStatus.discovered
           ∨ (processing_step freshEntry envUploadOkImage).entry.status = FileStatus.failed)) :=
  ⟨rfl, processing_step_complete_iff_success freshEntry envUploadOkImage rfl⟩

/-- Counterexample to claim C3: a first upload failure of a fresh entry is
non-terminal — the entry is requeued as DISCOVERED with one attempt — yet
`process_file` has already relocated the source file into the per-user
failed directory (sidecar included). The file is not left in place. -/
theorem nonterminal_failure_relocates_cex :
    (processing_step freshEntry envUploadFailImage).entry.status = FileStatus.discovered
    ∧ (processing_step freshEntry envUploadFailImage).entry.attempts = 1
    ∧ (processing_step freshEntry envUploadFailImage).output.move =
        some { destDir := "failed", sidecar := true } := by
  decide

/-- Claim C3 as amended: an item whose upload fails while its attempt count
is still below `max_attempts` — a non-terminal failure that requeues the
item as DISCOVERED — does not have its source file left in place:
`process_file` has already relocated it into the per-user failed directory
before the requeue decision is made, so relocation is not restricted to
terminal failures. -/
theorem upload_failure_always_relocates (e : LifecycleEntry) (env : ProcessEnv)
    (h : e.status = FileStatus.discovered) (hstay : e.attempts + 1 < 3)
    (h1 : env.analysisError = none) (h2 : env.captionExn = none)
    (h3 : env.uploaderAvailable = true)
    (h4 : env.content_type = "image" ∨ env.content_type = "video")
    (h5 : env.uploadSuccess = false) :
    (processing_step e env).entry.status = FileStatus.discovered
    ∧ (∃ mv : MoveEffect, (processing_step e env).output.move = some mv
        ∧ mv.destDir = "failed") := by
  have hout : process_file env =
      { success := false,
        uploadPhotoInvoked := env.content_type = "image",
        uploadVideoInvoked := ¬ (env.content_type = "image"),
        move := some (move_to_processed env.file_path "failed"
          (env.uploadError.getD "Unknown upload error")) } := by
    unfold process_file
    rw [h1, h2, h3, h5]
    simp [h4]
  constructor
  · unfold processing_step
    rw [hout]
    simp [mark_processing, mark_completed, mark_failed, h, hstay]
  · refine ⟨move_to_processed env.file_path "failed"
      (env.uploadError.getD "Unknown upload error"), ?_, ?_⟩
    · unfold processing_step
      rw [hout]
    · simp [move_to_processed]

/-- Witness for the amended C3 at a concrete non-terminal upload failure. -/
theorem upload_failure_always_relocates_witness :
    (processing_step freshEntry envUploadFailImage).entry.status = FileStatus.discovered
    ∧ (∃ mv : MoveEffect,
        (processing_step freshEntry envUploadFailImage).output.move = some mv
        ∧ mv.destDir = "failed") :=
  upload_failure_always_relocates freshEntry envUploadFailImage rfl (by decide)
    rfl rfl rfl (Or.inl rfl) rfl

/-- Counterexample to claim C4: an analysis failure on an entry with two
prior attempts is a terminal failure (the entry transitions to FAILED), yet
no relocation happens and no `.meta` sidecar is written — the error trail
exists only in the lifecycle record, not beside a relocated file. -/
theorem terminal_failure_without_sidecar_cex :
    (processing_step entryAttempts2 envAnalysisFail).entry.status = FileStatus.failed
    ∧ (processing_step entryAttempts2 envAnalysisFail).output.move = none := by
  decide

/-- Claim C4 as amended: a `.meta` sidecar is written exactly when the upload
stage itself fails (with the nonempty error text taken from the upload
result, or the default `"Unknown upload error"`), whether or not that
failure is terminal; terminal analysis and caption failures relocate nothing
and write no sidecar. -/
theorem sidecar_exactly_on_upload_failure (env : ProcessEnv) :
    (∃ mv : MoveEffect, (process_file env).move = some mv ∧ mv.sidecar = true) ↔
      (env.analysisError = none ∧ env.captionExn = none ∧ env.uploaderAvailable = true
       ∧ (env.content_type = "image" ∨ env.content_type = "video")
       ∧ env.uploadSuccess = false
       ∧ env.uploadError.getD "Unknown upload error" ≠ "") := by
  unfold process_file
  cases ha : env.analysisError with
  | some msg => simp [noEffects]
  | none =>
    cases hcpt : env.captionExn with
    | some msg => simp [noEffects]
    | none =>
      by_cases hup : env.uploaderAvailable
      · by_cases hct : env.content_type = "image" ∨ env.content_type = "video"
        · by_cases hs : env.uploadSuccess
          · simp [hup, hct, hs, move_to_processed]
          · simp [hup, hct, hs, move_to_processed]
        · simp [hup, hct, noEffects]
      · simp [hup, noEffects]

/-- Witness for the amended C4: the concrete non-terminal upload failure
does write a sidecar. -/
theorem sidecar_exactly_on_upload_failure_witness :
    ∃ mv : MoveEffect, (process_file envUploadFailImage).move = some mv
      ∧ mv.sidecar = true :=
  (sidecar_exactly_on_upload_failure envUploadFailImage).mpr
    ⟨rfl, rfl, rfl, Or.inl rfl, rfl, by decide⟩

/-- Counterexample to claim C8: on an item of unsupported content type,
neither upload method is invoked — but the failure still consumes a retry
attempt and the entry is requeued as DISCOVERED, so the item remains
eligible for further retries instead of failing terminally. -/
theorem unsupported_type_requeued_cex :
    (processing_step freshEntry envUnsupported).output.uploadPhotoInvoked = false
    ∧ (processing_step freshEntry envUnsupported).output.uploadVideoInvoked = false
    ∧ (processing_step freshEntry envUnsupported).success = false
    ∧ (processing_step freshEntry envUnsupported).entry.status = FileStatus.discovered
    ∧ (processing_step freshEntry envUnsupported).entry.attempts = 1 := by
  decide

/-- Claim C8 as amended: an unsupported content type never invokes either
upload method of the uploader (and the file is left in place), but the
failure is not special-cased as terminal: it consumes a retry attempt like
any other failure, the entry is requeued as DISCOVERED while the incremented
count is below `max_attempts = 3`, and it reaches FAILED only on the third
failure. -/
theorem unsupported_type_no_upload_but_retries (e : LifecycleEntry) (env : ProcessEnv)
    (h : e.status = FileStatus.discovered)
    (h1 : env.analysisError = none) (h2 : env.captionExn = none)
    (h3 : env.uploaderAvailable = true)
    (h4 : ¬ (env.content_type = "image" ∨ env.content_type = "video")) :
    (processing_step e env).output.uploadPhotoInvoked = false
    ∧ (processing_step e env).output.uploadVideoInvoked = false
    ∧ (processing_step e env).success = false
    ∧ (processing_step e env).output.move = none
    ∧ (processing_step e env).entry.attempts = e.attempts + 1
    ∧ ((processing_step e env).entry.status = FileStatus.discovered ↔ e.attempts + 1 < 3)
    ∧ ((processing_step e env).entry.status = FileStatus.failed ↔ 3 ≤ e.attempts + 1) := by
  have hout : process_file env = noEffects false := by
    unfold process_file
    rw [h1, h2, h3]
    simp [h4]
  unfold processing_step
  rw [hout]
  simp [noEffects, mark_processing, mark_completed, mark_failed, h]
  by_cases hc : e.attempts + 1 < 3
  · simp [hc]
    omega
  · simp [hc]
    omega

/-- Witness for the amended C8 at the concrete unsupported item. -/
theorem unsupported_type_no_upload_but_retries_witness :
    (processing_step freshEntry envUnsupported).output.uploadPhotoInvoked = false
    ∧ (processing_step freshEntry envUnsupported).output.uploadVideoInvoked = false
    ∧ (processing_step freshEntry envUnsupported).success = false
    ∧ (processing_step freshEntry envUnsupported).output.move = none
    ∧ (processing_step freshEntry envUnsupported).entry.attempts = freshEntry.attempts + 1
    ∧ ((processing_step freshEntry envUnsupported).entry.status = FileStatus.discovered ↔
        freshEntry.attempts + 1 < 3)
    ∧ ((processing_step freshEntry envUnsupported).entry.status = FileStatus.failed ↔
        3 ≤ freshEntry.attempts + 1) :=
  unsupported_type_no_upload_but_retries freshEntry envUnsupported rfl rfl rfl rfl
    (by decide)

/-- Claim C6: `analyze_file` always returns a dictionary (the embedding is a
total function): an unrecognized file type yields exactly
`{"error": "Unsupported file type"}`, an unexpected internal failure is
caught and returned as an error dict with the exception text, an image whose
open fails reports that error, and every successful result carries the
structured fields with a recognized file type. -/
theorem analyze_file_error_shape (env : AnalyzerEnv) :
    (env.outerFault = none → detect_file_type env.mimeResult = DetectedType.unknown →
      analyze_file env = AnalysisOutcome.error "Unsupported file type")
    ∧ (∀ e : String, env.outerFault = some e →
        analyze_file env = AnalysisOutcome.error e)
    ∧ (∀ e : String, env.outerFault = none →
        detect_file_type env.mimeResult = DetectedType.image →
        env.imageOpen = Except.error e →
        analyze_file env = AnalysisOutcome.error e)
    ∧ (∀ f : AnalysisFields, analyze_file env = AnalysisOutcome.fields f →
        f.file_type = "image" ∨ f.file_type = "video") := by
  refine ⟨?_, ?_, ?_, ?_⟩
  · intro ho hd
    unfold analyze_file
    rw [ho, hd]
  · intro e he
    unfold analyze_file
    rw [he]
  · intro e ho hd hi
    unfold analyze_file analyze_image
    rw [ho, hd, hi]
  · intro f hf
    unfold analyze_file at hf
    cases ho : env.outerFault with
    | some e => rw [ho] at hf; exact absurd hf (by simp)
    | none =>
      rw [ho] at hf
      cases hd : detect_file_type env.mimeResult with
      | unknown => rw [hd] at hf; exact absurd hf (by simp)
      | image =>
        rw [hd] at hf
        unfold analyze_image at hf
        cases hi : env.imageOpen with
        | error e => rw [hi] at hf; exact absurd hf (by simp)
        | ok u =>
          rw [hi] at hf
          simp at hf
          left
          rw [← hf]
      | video =>
        rw [hd] at hf
        unfold analyze_video at hf
        by_cases hfr : env.frameCount = 0
        · rw [if_pos hfr] at hf; exact absurd hf (by simp)
        · rw [if_neg hfr] at hf
          simp at hf
          right
          rw [← hf]

/-- Witness for C6: a `text/plain` file is reported as unsupported. -/
theorem analyze_file_error_shape_witness :
    envTextFile.outerFault = none
    ∧ detect_file_type envTextFile.mimeResult = DetectedType.unknown
    ∧ analyze_file envTextFile = AnalysisOutcome.error "Unsupported file type" :=
  ⟨rfl, by decide, (analyze_file_error_shape envTextFile).1 rfl (by decide)⟩

/-- Claim C5: `generate_caption` returns a caption string rather than
raising: whenever the fallback construction itself does not fault, the
result is `ok`; when only the AI refinement call fails, the failure is
absorbed internally and the result is the assembled caption built from the
templated `_generate_simple_caption` text (the fallback is never consulted);
an error reaches the caller exactly when the main body faults and the
fallback construction faults too. -/
theorem generate_caption_total_with_fallback (o : CaptionOracles) (a : AnalysisInput)
    (style : String) (maxCaptionLength : Int) :
    (o.fallbackFault = none →
      ∃ s : String, generate_caption o a style maxCaptionLength = Except.ok s)
    ∧ (∀ e : String, o.bodyFault = none → o.aiCall = Except.error e →
        generate_caption o a style maxCaptionLength =
          Except.ok (assemble_caption o maxCaptionLength (a.category.getD "general")
            (generate_simple_caption o.simpleIdx (a.caption.getD "")
              (a.category.getD "general") style)))
    ∧ ((∃ e : String, generate_caption o a style maxCaptionLength = Except.error e) ↔
        (o.bodyFault.isSome ∧ o.fallbackFault.isSome)) := by
  refine ⟨?_, ?_, ?_⟩
  · intro hf
    unfold generate_caption
    cases hb : o.bodyFault with
    | some e =>
      rw [hf]
      exact ⟨generate_fallback_caption o.fallbackIdx a, rfl⟩
    | none =>
      exact ⟨_, rfl⟩
  · intro e hb hai
    unfold generate_caption
    rw [hb]
    unfold generate_ai_caption
    rw [hai]
  · constructor
    · rintro ⟨e, he⟩
      unfold generate_caption at he
      cases hb : o.bodyFault with
      | none => rw [hb] at he; exact absurd he (by simp)
      | some b =>
        rw [hb] at he
        cases hf : o.fallbackFault with
        | none => rw [hf] at he; exact absurd he (by simp)
        | some f => simp [hb, hf]
    · rintro ⟨hb, hf⟩
      rcases Option.isSome_iff_exists.mp hb with ⟨b, hbe⟩
      rcases Option.isSome_iff_exists.mp hf with ⟨f, hfe⟩
      refine ⟨f, ?_⟩
      unfold generate_caption
      rw [hbe, hfe]

/-- Witness for C5: with the OpenAI call down and nothing else wrong, the
caller still receives an `ok` caption, built from the templated text. -/
theorem generate_caption_total_with_fallback_witness :
    oraclesAiDown.bodyFault = none
    ∧ oraclesAiDown.aiCall = Except.error "api down"
    ∧ generate_caption oraclesAiDown analysisGaming "engaging" 2200 =
        Except.ok (assemble_caption oraclesAiDown 2200
          (analysisGaming.category.getD "general")
          (generate_simple_caption oraclesAiDown.simpleIdx
            (analysisGaming.caption.getD "")
            (analysisGaming.category.getD "general") "engaging")) :=
  ⟨rfl, rfl,
    (generate_caption_total_with_fallback oraclesAiDown analysisGaming "engaging" 2200).2.1
      "api down" rfl rfl⟩

/-- Claim C7: when `upload_photo` or `upload_video` fails for a rate-limit
reason — the uploader's own daily cap (result `"Rate limit exceeded"`) or
the platform's `PleaseWaitFewMinutes` response (result `"Rate limited"`,
15 minutes) — the result has `success = false` and carries a `retry_after`
value; and every unsuccessful result of either method carries an error
description (the embedding is total: no path raises). -/
theorem upload_rate_limit_retry_after
    (s : UploaderState) (today sut uds : Nat) (prepared : Bool)
    (client : ClientOutcome) (mockPk : String) (vclient : VideoClientOutcome) :
    ((check_rate_limits s today).2 = false →
      ((upload_photo s today sut uds prepared client).result.success = false
       ∧ (upload_photo s today sut uds prepared client).result.error =
           some "Rate limit exceeded"
       ∧ (upload_photo s today sut uds prepared client).result.retry_after.isSome
       ∧ (upload_video s today sut uds prepared mockPk vclient).result.success = false
       ∧ (upload_video s today sut uds prepared mockPk vclient).result.error =
           some "Rate limit exceeded"
       ∧ (upload_video s today sut uds prepared mockPk vclient).result.retry_after.isSome))
    ∧ ((check_rate_limits s today).2 = true → prepared = true →
        client = ClientOutcome.pleaseWait →
      ((upload_photo s today sut uds prepared client).result.success = false
       ∧ (upload_photo s today sut uds prepared client).result.error = some "Rate limited"
       ∧ (upload_photo s today sut uds prepared client).result.retry_after = some (15 * 60)))
    ∧ ((check_rate_limits s today).2 = true → prepared = true →
        vclient = VideoClientOutcome.pleaseWait →
      ((upload_video s today sut uds prepared mockPk vclient).result.success = false
       ∧ (upload_video s today sut uds prepared mockPk vclient).result.error =
           some "Rate limited"
       ∧ (upload_video s today sut uds prepared mockPk vclient).result.retry_after =
           some (15 * 60)))
    ∧ ((upload_photo s today sut uds prepared client).result.success = false →
        (upload_photo s today sut uds prepared client).result.error.isSome)
    ∧ ((upload_video s today sut uds prepared mockPk vclient).result.success = false →
        (upload_video s today sut uds prepared mockPk vclient).result.error.isSome) := by
  rcases hchk : check_rate_limits s today with ⟨s1, okb⟩
  refine ⟨?_, ?_, ?_, ?_, ?_⟩
  · intro hok
    simp only [hchk] at hok
    subst hok
    simp [upload_photo, upload_video, hchk]
  · intro hok hp hc
    simp only [hchk] at hok
    subst hok hp hc
    simp [upload_photo, hchk]
  · intro hok hp hc
    simp only [hchk] at hok
    subst hok hp hc
    simp [upload_video, hchk, safe_video_upload]
  · cases okb with
    | false => simp [upload_photo, hchk]
    | true =>
      cases prepared with
      | false => simp [upload_photo, hchk]
      | true =>
        cases client with
        | ok pk code => simp [upload_photo, hchk]
        | feedback m => simp [upload_photo, hchk]
        | pleaseWait => simp [upload_photo, hchk]
        | exn m => simp [upload_photo, hchk]
  · cases okb with
    | false => simp [upload_video, hchk]
    | true =>
      cases prepared with
      | false => simp [upload_video, hchk]
      | true =>
        cases vclient with
        | ok pk => simp [upload_video, hchk, safe_video_upload]
        | validationError pf =>
          cases pf with
          | none => simp [upload_video, hchk, safe_video_upload]
          | some p => simp [upload_video, hchk, safe_video_upload]
        | feedback m => simp [upload_video, hchk, safe_video_upload]
        | pleaseWait => simp [upload_video, hchk, safe_video_upload]
        | exn m => simp [upload_video, hchk, safe_video_upload]

/-- Witness for C7: at the daily cap, both upload methods answer
`"Rate limit exceeded"` with a `retry_after` hint. -/
theorem upload_rate_limit_retry_after_witness :
    (check_rate_limits uploaderAtCap 7000).2 = false
    ∧ (upload_photo uploaderAtCap 7000 3600 600 true
        (ClientOutcome.ok "1" "c")).result.error = some "Rate limit exceeded"
    ∧ (upload_photo uploaderAtCap 7000 3600 600 true
        (ClientOutcome.ok "1" "c")).result.retry_after.isSome
    ∧ (upload_video uploaderAtCap 7000 3600 600 true "mock"
        (VideoClientOutcome.ok "2")).result.error = some "Rate limit exceeded" := by
  have h := (upload_rate_limit_retry_after uploaderAtCap 7000 3600 600 true
    (ClientOutcome.ok "1" "c") "mock" (VideoClientOutcome.ok "2")).1 (by decide)
  exact ⟨by decide, h.2.1, h.2.2.1, h.2.2.2.2.1⟩

/-- Claim C9: the uploader accepts at most its daily cap of uploads per
calendar day: with the cap already reached and the date unchanged, both
upload methods answer `success = false` with `"Rate limit exceeded"`
without invoking the platform client and without changing the counter; the
counter can only decrease through the reset on a date change; and on an
unchanged date the counter never exceeds the cap. -/
theorem daily_upload_cap
    (s : UploaderState) (today sut uds : Nat) (prepared : Bool)
    (client : ClientOutcome) (mockPk : String) (vclient : VideoClientOutcome) :
    (¬ s.last_reset_date < today → s.max_daily_uploads ≤ s.daily_uploads →
      ((upload_photo s today sut uds prepared client).result.success = false
       ∧ (upload_photo s today sut uds prepared client).result.error =
           some "Rate limit exceeded"
       ∧ (upload_photo s today sut uds prepared client).clientInvoked = false
       ∧ (upload_photo s today sut uds prepared client).state.daily_uploads =
           s.daily_uploads
       ∧ (upload_video s today sut uds prepared mockPk vclient).result.success = false
       ∧ (upload_video s today sut uds prepared mockPk vclient).result.error =
           some "Rate limit exceeded"
       ∧ (upload_video s today sut uds prepared mockPk vclient).clientInvoked = false
       ∧ (upload_video s today sut uds prepared mockPk vclient).state.daily_uploads =
           s.daily_uploads))
    ∧ ((upload_photo s today sut uds prepared client).state.daily_uploads <
          s.daily_uploads → s.last_reset_date < today)
    ∧ ((upload_video s today sut uds prepared mockPk vclient).state.daily_uploads <
          s.daily_uploads → s.last_reset_date < today)
    ∧ (¬ s.last_reset_date < today → s.daily_uploads ≤ s.max_daily_uploads →
      ((upload_photo s today sut uds prepared client).state.daily_uploads ≤
          s.max_daily_uploads
       ∧ (upload_video s today sut uds prepared mockPk vclient).state.daily_uploads ≤
          s.max_daily_uploads)) := by
  by_cases hd : s.last_reset_date < today
  · exact ⟨fun hnd _ => absurd hd hnd, fun _ => hd, fun _ => hd,
      fun hnd _ => absurd hd hnd⟩
  · have hs1 : (check_rate_limits s today).1 = s := by
      simp [check_rate_limits, hd]
    by_cases hcap : s.daily_uploads < s.max_daily_uploads
    · have h2 : (check_rate_limits s today).2 = true := by
        simp [check_rate_limits, hd, hcap]
      have hpst : (upload_photo s today sut uds prepared client).state.daily_uploads =
            s.daily_uploads
          ∨ (upload_photo s today sut uds prepared client).state.daily_uploads =
            s.daily_uploads + 1 := by
        cases prepared with
        | false => left; simp [upload_photo, hs1, h2]
        | true =>
          cases client with
          | ok pk code => right; simp [upload_photo, hs1, h2]
          | feedback m => left; simp [upload_photo, hs1, h2]
          | pleaseWait => left; simp [upload_photo, hs1, h2]
          | exn m => left; simp [upload_photo, hs1, h2]
      have hvst : (upload_video s today sut uds prepared mockPk vclient).state.daily_uploads =
            s.daily_uploads
          ∨ (upload_video s today sut uds prepared mockPk vclient).state.daily_uploads =
            s.daily_uploads + 1 := by
        cases prepared with
        | false => left; simp [upload_video, hs1, h2]
        | true =>
          cases hsv : safe_video_upload mockPk vclient with
          | ok pk => right; simp [upload_video, hs1, h2, hsv]
          | error ex =>
            cases ex with
            | feedback m => left; simp [upload_video, hs1, h2, hsv]
            | pleaseWait => left; simp [upload_video, hs1, h2, hsv]
            | other m => left; simp [upload_video, hs1, h2, hsv]
      refine ⟨fun _ hge => absurd hcap (by omega), ?_, ?_, fun _ hle => ?_⟩
      · intro hlt
        rcases hpst with h | h <;> omega
      · intro hlt
        rcases hvst with h | h <;> omega
      · constructor
        · rcases hpst with h | h <;> omega
        · rcases hvst with h | h <;> omega
    · have h2 : (check_rate_limits s today).2 = false := by
        simp [check_rate_limits, hd, hcap]
      have hphoto : upload_photo s today sut uds prepared client =
          { state := s, clientInvoked := false,
            result := { success := false, error := some "Rate limit exceeded",
                        retry_after := some (get_retry_time s sut uds),
                        media_id := none, details := none } } := by
        simp [upload_photo, hs1, h2]
      have hvideo : upload_video s today sut uds prepared mockPk vclient =
          { state := s, clientInvoked := false,
            result := { success := false, error := some "Rate limit exceeded",
                        retry_after := some (get_retry_time s sut uds),
                        media_id := none, details := none } } := by
        simp [upload_video, hs1, h2]
      refine ⟨fun _ _ => ?_, ?_, ?_, fun _ hle => ?_⟩
      · rw [hphoto, hvideo]
        exact ⟨rfl, rfl, rfl, rfl, rfl, rfl, rfl, rfl⟩
      · rw [hphoto]
        intro hlt
        simp at hlt
      · rw [hvideo]
        intro hlt
        simp at hlt
      · rw [hphoto, hvideo]
        exact ⟨hle, hle⟩

/-- Witness for C9: at the cap (50 of 50) on an unchanged date, the photo
call is rejected without invoking the client and the counter stays at 50. -/
theorem daily_upload_cap_witness :
    ¬ uploaderAtCap.last_reset_date < 7000
    ∧ uploaderAtCap.max_daily_uploads ≤ uploaderAtCap.daily_uploads
    ∧ (upload_photo uploaderAtCap 7000 3600 600 true
        (ClientOutcome.ok "1" "c")).result.error = some "Rate limit exceeded"
    ∧ (upload_photo uploaderAtCap 7000 3600 600 true
        (ClientOutcome.ok "1" "c")).clientInvoked = false
    ∧ (upload_photo uploaderAtCap 7000 3600 600 true
        (ClientOutcome.ok "1" "c")).state.daily_uploads = uploaderAtCap.daily_uploads := by
  have h := (daily_upload_cap uploaderAtCap 7000 3600 600 true
    (ClientOutcome.ok "1" "c") "mock" (VideoClientOutcome.ok "2")).1
    (by decide) (by decide)
  exact ⟨by decide, by decide, h.2.1, h.2.2.1, h.2.2.2.1⟩

/-- Right-stripping never lengthens a string. -/
theorem pyRstrip_length_le (s : List Char) : (pyRstrip s).length ≤ s.length := by
  unfold pyRstrip
  rw [List.length_reverse]
  calc (s.reverse.dropWhile pyIsSpace).length
      ≤ s.reverse.length := List.Sublist.length_le (List.dropWhile_sublist _)
    _ = s.length := List.length_reverse s

/-- The sentence loop of `_trim_caption` keeps its accumulator within
`max_length - 3`. -/
theorem sentLoop_length_le (m : Int) (ss : List (List Char)) :
    ∀ acc : List Char, (acc.length : Int) ≤ m - 3 →
      (((sentLoop m ss acc).length : Int)) ≤ m - 3 := by
  induction ss with
  | nil =>
    intro acc h
    simpa [sentLoop] using h
  | cons s rest ih =>
    intro acc h
    simp only [sentLoop]
    split
    · next hfit => exact ih _ hfit
    · exact h

/-- The word loop of `_trim_caption` keeps the joined accumulator within
`max_length - 3`. -/
theorem wordLoop_join_le (m : Int) (ws : List (List Char)) :
    ∀ acc : List (List Char), ((joinSpace acc).length : Int) ≤ m - 3 →
      (((joinSpace (wordLoop m ws acc)).length : Int)) ≤ m - 3 := by
  induction ws with
  | nil =>
    intro acc h
    simpa [wordLoop] using h
  | cons w rest ih =>
    intro acc h
    simp only [wordLoop]
    split
    · next hfit => exact ih _ hfit
    · exact h

/-- Claim C10: for every caption and every `max_length ≥ 3`, `_trim_caption`
returns a string of length at most `max_length`, and returns the caption
unchanged whenever it already fits. -/
theorem trim_caption_spec (caption : List Char) (m : Int) (h : 3 ≤ m) :
    ((trim_caption caption m).length : Int) ≤ m
    ∧ ((caption.length : Int) ≤ m → trim_caption caption m = caption) := by
  by_cases hc : (caption.length : Int) ≤ m
  · refine ⟨?_, fun _ => ?_⟩
    · simp only [trim_caption, if_pos hc]
      exact hc
    · simp [trim_caption, hc]
  · refine ⟨?_, fun hcc => absurd hcc hc⟩
    simp only [trim_caption, if_neg hc]
    split
    · next hne =>
      have h1 := sentLoop_length_le m (splitDotSpace [] caption) [] (by simp; omega)
      have h2 := pyRstrip_length_le (sentLoop m (splitDotSpace [] caption) [])
      simp only [List.length_append, List.length_cons, List.length_nil]
      push_cast
      omega
    · next hne =>
      have hj : joinSpace ([] : List (List Char)) = [] := rfl
      have h1 := wordLoop_join_le m (pySplitWS caption) [] (by rw [hj]; simp; omega)
      simp only [List.length_append, List.length_cons, List.length_nil]
      push_cast
      omega

/-- Witness for C10 at a concrete caption and limit. -/
theorem trim_caption_spec_witness :
    (3 : Int) ≤ 20
    ∧ (((trim_caption "Short one. A much longer second sentence.".toList 20).length : Int) ≤ 20
       ∧ ((("Short one. A much longer second sentence.".toList.length : Int) ≤ 20) →
           trim_caption "Short one. A much longer second sentence.".toList 20 =
             "Short one. A much longer second sentence.".toList)) :=
  ⟨by norm_num, trim_caption_spec "Short one. A much longer second sentence.".toList 20 (by norm_num)⟩
